import Mathlib

/-!
Verification of the pyrga RGA serial driver (src/pyrga/driver.py) against its
natural-language specification.  Python floating-point numbers are modelled as
exact rationals, byte strings as lists of naturals, and each driver method as a
pure function from the session state and the device replies it consumes to the
result, the updated session and the list of command frames it wrote.
-/

/-- The kinds of Python exceptions the driver can raise: the library exception
`RGAException` carrying a message, and the built-in `TypeError`,
`AttributeError`, `IndexError` and `StopIteration` that escape from slips in
the code (`StopIteration` from the bare `next(...)` in `get_ion_energy`). -/
inductive PyError where
  | rga (msg : String)
  | typeError
  | attributeError
  | indexError
  | stopIteration
deriving Repr, DecidableEq

/-- The argument part of a command frame `<CODE><ARG>\r`:
empty, `?` (query), `*` (reset to default), an integer, a float, or a literal
string such as the "1" of the scan-start command. -/
inductive Arg where
  | empty
  | query
  | star
  | int (n : Int)
  | rat (q : Rat)
  | str (s : String)
deriving Repr, DecidableEq

/-- One command frame written to the serial transport. -/
structure Cmd where
  code : String
  arg : Arg
deriving Repr, DecidableEq

/-- The mutable attributes of an `RGAClient` instance that the verified methods
touch.  `emission_current` is an `Option` because Python only creates the
`_emission_current_mA` attribute when some code path assigns it. -/
structure Session where
  cdem_present : Bool
  filament_status : Bool
  amu_scan_max : Int
  electron_energy : Int
  ion_energy : Int
  plate_voltage : Int
  noise_floor : Int
  partial_sens_mA_per_Torr : Rat
  total_sens_mA_per_Torr : Rat
  emission_current : Option Rat
  cedm_voltage : Int
  amu_min : Option Int
  amu_max : Option Int
  amu_res : Option Int
deriving Repr, DecidableEq

/-- Python `round(x)`: round half to even, returning an integer. -/
def pyRound (q : Rat) : Int :=
  let f := ⌊q⌋
  let frac := q - f
  if frac < 1/2 then f
  else if 1/2 < frac then f + 1
  else if 2 ∣ f then f else f + 1

/-- Python `round(x, 2)`: round half to even at two decimal places. -/
def pyRound2 (q : Rat) : Rat :=
  (pyRound (q * 100) : Rat) / 100

/-- Python `%`-formatting applied to a single (non-tuple) operand: it succeeds
exactly when the format string holds one conversion specifier; with any other
specifier count it raises `TypeError`.  `specifiers` counts the `%s` marks in
the literal format string and `args` the operands (a list operand counts as
one). -/
def pyFormatArgs (specifiers args : Nat) (rendered : String) : Except PyError String :=
  if specifiers = args then .ok rendered else .error .typeError

/-- `seq(start, stop, step)` from driver.py line 10: the comprehension
`[start + step*i for i in range(int(round((stop-start)/step)))] + [stop]`. -/
def seq (start stop step : Rat) : List Rat :=
  (List.range (pyRound ((stop - start) / step)).toNat).map
    (fun i : Nat => start + step * (i : Rat)) ++ [stop]

/-- `RGAClient._STATUS_ERROR_BITS`: the bit-position-to-error-name table,
`None` marking the two reserved positions. -/
def STATUS_ERROR_BITS : List (Option String) :=
  [some "RS232_ERR", some "FIL_ERR", none, some "CEM_ERR",
   some "QMF_ERR", some "DET_ERR", some "PS_ERR", none]

/-- `RGAClient._STATUS_REPORTING_COMMANDS`. -/
def STATUS_REPORTING_COMMANDS : List String := ["EE", "FL", "IE", "VF", "CA", "HV"]

/-- `"{:08b}".format(status_byte)` followed by `map(int, ...)`: the eight bits
of the byte, most significant first, as integers 0 or 1. -/
def bits8 (b : Nat) : List Nat :=
  (List.range 8).map (fun i => b / 2 ^ (7 - i) % 2)

/-- Python `s == "1"` where `s` is an `int`: comparison between an `int` and a
`str` is always `False` in Python, whatever the values. -/
def pyIntEqStrOne (_ : Nat) : Bool := false

/-- `RGAClient._check_status_byte` (driver.py lines 544-552), as a function of
the CDEM presence flag and the status byte read from the transport: the name of
the error it raises, or `none` when it returns normally.  The source converts
the bit characters to `int`s with `map(int, ...)` and then tests `s == "1"`
against the string literal, so the test is the cross-type comparison modelled
by `pyIntEqStrOne`. -/
def _check_status_byte (cdem_present : Bool) (status_byte : Nat) : Option String :=
  let bin_str := bits8 status_byte
  let bin_str := if cdem_present then bin_str else bin_str.set 3 0
  (List.zip bin_str STATUS_ERROR_BITS).findSome?
    (fun se => if pyIntEqStrOne se.1 && se.2.isSome then se.2 else none)

/-- `RGAClient._send_command` (driver.py lines 535-542): the frame written, and
the status-check outcome when the command is a non-query member of the
status-reporting list (`none` otherwise or when the check passes). -/
def _send_command (cdem_present : Bool) (status_byte : Nat) (code : String)
    (arg : Arg) : List Cmd × Option String :=
  ([⟨code, arg⟩],
    if arg ≠ Arg.query ∧ code ∈ STATUS_REPORTING_COMMANDS then
      _check_status_byte cdem_present status_byte
    else none)

theorem check_status_byte_eq_none (p : Bool) (b : Nat) :
    _check_status_byte p b = none := by
  unfold _check_status_byte pyIntEqStrOne
  cases p <;> simp [bits8, STATUS_ERROR_BITS, List.range_succ]

/-- `RGAClient.get_filament_status` (driver.py lines 423-427) as a function of
the emission-current readback returned by `FL?`:
`if self.get_emission_current() < 0.0 + self._EMISSION_CURRENT_INC: return
False; return True` with `_EMISSION_CURRENT_INC = 0.02`. -/
def get_filament_status (readback : Rat) : Bool :=
  if readback < 0 + 1/50 then false else true

/-- `RGAClient._CURRENT_MULTIPLIER = 1e-16`, exact in the rational model. -/
def CURRENT_MULTIPLIER : Rat := 1 / 10 ^ 16

/-- `RGAClient._decode_bin_current` (driver.py lines 614-622):
`struct.unpack("<i", current_bytes)[0] * self._CURRENT_MULTIPLIER`.  The
unpack succeeds only on exactly four bytes, read as a little-endian signed
32-bit integer; any other length raises, which the source converts to
`RGAException`. -/
def _decode_bin_current (current_bytes : List Nat) : Except PyError Rat :=
  match current_bytes with
  | [b0, b1, b2, b3] =>
      let u : Nat := b0 + 256 * b1 + 256 ^ 2 * b2 + 256 ^ 3 * b3
      let m : Int := if u < 2 ^ 31 then (u : Int) else (u : Int) - 2 ^ 32
      .ok ((m : Rat) * CURRENT_MULTIPLIER)
  | _ => .error (.rga "Cannot decode binary current value")

/-- `RGAClient._current_to_partial_pressure` (driver.py lines 624-625),
with the sensitivity factor taken from the session field it reads. -/
def _current_to_partial_pressure (sens : Rat) (current_bytes : List Nat) :
    Except PyError Rat := do
  let c ← _decode_bin_current current_bytes
  return c / sens * 1000

/-- `RGAClient._current_to_total_pressure` (driver.py lines 627-628). -/
def _current_to_total_pressure (sens : Rat) (current_bytes : List Nat) :
    Except PyError Rat := do
  let c ← _decode_bin_current current_bytes
  return c / sens * 1000

/-- Little-endian two-complement encoding of a signed 32-bit integer into four
bytes, the inverse of what `struct.unpack("<i", _)` reads. -/
def leBytes (m : Int) : List Nat :=
  let u : Nat := (m % 2 ^ 32).toNat
  [u % 256, u / 256 % 256, u / 256 ^ 2 % 256, u / 256 ^ 3 % 256]

/-- Outcome of `_read_buffer_chunked`: the `RGAException` raised when the
attempt budget is exhausted, or the returned byte string. -/
inductive ReadOutcome where
  | timeout
  | ok (bs : List Nat)
deriving Repr, DecidableEq

/-- The loop body of `RGAClient._read_buffer_chunked` (driver.py lines
571-599).  The transport is modelled by `avail` — the cumulative number of
bytes it has delivered by the time of the t-th `in_waiting` poll — and
`stream`, the byte it delivers at each position; `read(recv)` consumes the
next `recv` bytes of `stream` in order.  The state mirrors the Python locals:
`consumed` counts bytes read off the port so far, `recv`, `recv_total` and
`attempt` are as in the source, `acc` is `data_recv` joined, and `tick` counts
`in_waiting` polls.  `fuel` only bounds the recursion depth; `none` means the
fuel ran out (shown unreachable for the top-level fuel below). -/
def readChunkedAux (avail stream : Nat → Nat) (length_bytes attempts chunk : Nat) :
    Nat → Nat → Nat → Nat → Nat → Nat → List Nat → Option ReadOutcome
  | 0, _, _, _, _, _, _ => none
  | fuel + 1, tick, consumed, recv, recv_total, attempt, acc =>
    if recv_total < length_bytes then
      if recv < chunk ∧ recv + recv_total ≠ length_bytes then
        -- inner while body: attempt += 1; recv = in_waiting; raise past budget
        let attempt1 := attempt + 1
        let recv1 := avail tick - consumed
        if attempt1 > attempts then some .timeout
        else readChunkedAux avail stream length_bytes attempts chunk
          fuel (tick + 1) consumed recv1 recv_total attempt1 acc
      else
        -- read(recv); recv_total += recv; recv = in_waiting
        let acc1 := acc ++ (List.range recv).map (fun i => stream (consumed + i))
        let recv1 := avail tick - (consumed + recv)
        readChunkedAux avail stream length_bytes attempts chunk
          fuel (tick + 1) (consumed + recv) recv1 (recv_total + recv) attempt acc1
    else
      some (.ok (acc.take length_bytes))

/-- `RGAClient._read_buffer_chunked(length_bytes, attempts)` with the default
chunk ceiling of 64: `if length_bytes < chunk: chunk = length_bytes`, then the
poll-and-read loop, returning `join(data_recv)[:length_bytes]`. -/
def _read_buffer_chunked (avail stream : Nat → Nat) (length_bytes attempts : Nat) :
    Option ReadOutcome :=
  let chunk := if length_bytes < 64 then length_bytes else 64
  readChunkedAux avail stream length_bytes attempts chunk
    (attempts + length_bytes + 2) 0 0 0 0 0 []

theorem readChunkedAux_isSome (avail stream : Nat → Nat) (L A C : Nat) (hC : 1 ≤ C) :
    ∀ fuel tick consumed recv recv_total attempt acc,
      (A + 1 - attempt) + (L - recv_total) < fuel →
      (readChunkedAux avail stream L A C fuel tick consumed recv recv_total attempt
        acc).isSome := by
  intro fuel
  induction fuel with
  | zero => intro _ _ _ _ _ _ h; omega
  | succ n ih =>
    intro tick consumed recv recv_total attempt acc h
    rw [readChunkedAux]
    split
    · next houter =>
      split
      · next hin =>
        dsimp only
        split
        · simp
        · next hatt =>
          apply ih
          omega
      · next hin =>
        apply ih
        push_neg at hin
        omega
    · simp

theorem readChunkedAux_ok (avail stream : Nat → Nat) (L A C : Nat) :
    ∀ fuel tick recv recv_total attempt bs,
      readChunkedAux avail stream L A C fuel tick recv_total recv recv_total attempt
        ((List.range recv_total).map stream) = some (.ok bs) →
      bs = (List.range L).map stream := by
  intro fuel
  induction fuel with
  | zero => intro _ _ _ _ _ h; simp [readChunkedAux] at h
  | succ n ih =>
    intro tick recv recv_total attempt bs h
    rw [readChunkedAux] at h
    split at h
    · next houter =>
      split at h
      · dsimp only at h
        split at h
        · simp at h
        · exact ih _ _ _ _ _ h
      · have hacc : (List.range recv_total).map stream ++
            (List.range recv).map (fun i => stream (recv_total + i)) =
            (List.range (recv_total + recv)).map stream := by
          rw [List.range_add, List.map_append, List.map_map]
          rfl
        rw [hacc] at h
        exact ih _ _ _ _ _ h
    · next houter =>
      simp only [Option.some.injEq, ReadOutcome.ok.injEq] at h
      subst h
      rw [← List.map_take, List.take_range, Nat.min_eq_left (by omega)]

theorem read_buffer_chunked_isSome (avail stream : Nat → Nat) (L A : Nat) :
    (_read_buffer_chunked avail stream L A).isSome := by
  unfold _read_buffer_chunked
  by_cases hL : L = 0
  · subst hL
    simp [readChunkedAux]
  · apply readChunkedAux_isSome
    · split <;> omega
    · omega

theorem decode_leBytes (m : Int) (hlo : -(2 ^ 31) ≤ m) (hhi : m < 2 ^ 31) :
    _decode_bin_current (leBytes m) = .ok ((m : Rat) * (1 / 10 ^ 16)) := by
  unfold leBytes _decode_bin_current CURRENT_MULTIPLIER
  dsimp only
  have hu : (((m % 2 ^ 32).toNat : Nat) : Int) = m % 2 ^ 32 := by
    have : (0 : Int) ≤ m % 2 ^ 32 := Int.emod_nonneg m (by norm_num)
    omega
  set u := (m % 2 ^ 32).toNat with hudef
  have hrec : u % 256 + 256 * (u / 256 % 256) + 256 ^ 2 * (u / 256 ^ 2 % 256) +
      256 ^ 3 * (u / 256 ^ 3 % 256) = u := by omega
  rw [hrec]
  have hm : (if u < 2 ^ 31 then (u : Int) else (u : Int) - 2 ^ 32) = m := by
    split <;> omega
  rw [hm]

theorem pressure_leBytes (m : Int) (sens : Rat)
    (hlo : -(2 ^ 31) ≤ m) (hhi : m < 2 ^ 31) :
    _current_to_partial_pressure sens (leBytes m) =
      .ok ((m : Rat) * (1 / 10 ^ 16) / sens * 1000) := by
  unfold _current_to_partial_pressure
  rw [decode_leBytes m hlo hhi]
  rfl

theorem decode_bad_length (bs : List Nat) (h : bs.length ≠ 4) :
    _decode_bin_current bs = .error (.rga "Cannot decode binary current value") := by
  unfold _decode_bin_current
  rcases bs with _ | ⟨a, _ | ⟨b, _ | ⟨c, _ | ⟨d, _ | ⟨e, tl⟩⟩⟩⟩⟩ <;>
    first | rfl | (exfalso; simp at h)

/-- C1 (code_bug evidence): `_check_status_byte` never raises, for every CDEM
presence flag and every status byte — in particular a byte with only the
CEM_ERR position set does not raise even when the detector is present.  The
source compares each `int` bit to the string literal `"1"`, and Python
cross-type equality is always `False`, so no flag value can ever trigger the
`RGAException`. -/
theorem C1_status_check_never_raises (present : Bool) (status_byte : Nat) :
    _check_status_byte present status_byte = none :=
  check_status_byte_eq_none present status_byte

/-- C10 (confirmed): `get_filament_status` reports the filament as off exactly
when the emission-current readback is strictly below 0.02 mA, and as on
exactly when the readback is at least 0.02 mA. -/
theorem C10_filament_status_threshold (readback : Rat) :
    (get_filament_status readback = false ↔ readback < 1/50) ∧
    (get_filament_status readback = true ↔ 1/50 ≤ readback) := by
  unfold get_filament_status
  rcases lt_or_ge readback (1/50) with h | h
  · rw [if_pos (by linarith)]
    exact ⟨⟨fun _ => h, fun _ => rfl⟩,
      ⟨fun hc => Bool.noConfusion hc, fun hle => absurd h (not_lt.mpr hle)⟩⟩
  · rw [if_neg (by linarith)]
    exact ⟨⟨fun hc => Bool.noConfusion hc, fun hlt => absurd hlt (not_lt.mpr h)⟩,
      ⟨fun _ => h, fun _ => rfl⟩⟩

/-- C8 (confirmed): decoding four bytes that little-endian encode the signed
32-bit mantissa `m` yields exactly `m * 1e-16` ampere; converting that current
with sensitivity `sens` yields exactly `current / sens * 1000`; and a payload
that is not exactly four bytes fails with the malformed-value error. -/
theorem C8_current_decoding_exact (m : Int) (sens : Rat) (bs : List Nat)
    (hlo : -(2 ^ 31) ≤ m) (hhi : m < 2 ^ 31) (hbad : bs.length ≠ 4) :
    _decode_bin_current (leBytes m) = .ok ((m : Rat) * (1 / 10 ^ 16)) ∧
    _current_to_partial_pressure sens (leBytes m) =
      .ok ((m : Rat) * (1 / 10 ^ 16) / sens * 1000) ∧
    _decode_bin_current bs = .error (.rga "Cannot decode binary current value") :=
  ⟨decode_leBytes m hlo hhi, pressure_leBytes m sens hlo hhi, decode_bad_length bs hbad⟩

/-- Witness for C8 at mantissa 16 (the spec example: 1.6e-15 A), sensitivity
10 and a 3-byte payload. -/
theorem C8_current_decoding_exact_witness :
    _decode_bin_current (leBytes 16) = .ok ((16 : Rat) * (1 / 10 ^ 16)) ∧
    _current_to_partial_pressure 10 (leBytes 16) =
      .ok ((16 : Rat) * (1 / 10 ^ 16) / 10 * 1000) ∧
    _decode_bin_current [0, 0, 0] = .error (.rga "Cannot decode binary current value") :=
  C8_current_decoding_exact 16 10 [0, 0, 0] (by norm_num) (by norm_num) (by simp)

/-- C3 (confirmed): for every target byte count, attempt budget and transport
delivery pattern, `_read_buffer_chunked` terminates, and whenever it returns a
byte string (rather than raising the timeout `RGAException`) that byte string
is exactly the first `length_bytes` bytes the transport delivered, in order —
of length exactly `length_bytes`, never shorter and never longer. -/
theorem C3_chunked_read_exact (avail stream : Nat → Nat) (length_bytes attempts : Nat) :
    (_read_buffer_chunked avail stream length_bytes attempts).isSome ∧
    ∀ bs, _read_buffer_chunked avail stream length_bytes attempts = some (.ok bs) →
      bs = (List.range length_bytes).map stream ∧ bs.length = length_bytes := by
  refine ⟨read_buffer_chunked_isSome avail stream length_bytes attempts, ?_⟩
  intro bs h
  unfold _read_buffer_chunked at h
  dsimp only at h
  have hbs := readChunkedAux_ok avail stream length_bytes attempts
      (if length_bytes < 64 then length_bytes else 64)
      (attempts + length_bytes + 2) 0 0 0 0 bs (by simpa using h)
  exact ⟨hbs, by simp [hbs]⟩

/-- Witness for C3: a transport delivering three bytes per poll tick serving a
five-byte read. -/
theorem C3_chunked_read_exact_witness :
    ([0, 1, 2, 3, 4] : List Nat) = (List.range 5).map (fun i => i) ∧
    ([0, 1, 2, 3, 4] : List Nat).length = 5 :=
  (C3_chunked_read_exact (fun t => 3 * t) (fun i => i) 5 10).2 [0, 1, 2, 3, 4] (by decide)

/-- The slicing `[spectrum_bytes[i : i + 4] for i in range(0, len(spectrum_bytes), 4)]`
from `_decode_spectrum` (driver.py line 602): consecutive 4-byte frames, the
last one shorter when the length is not a multiple of four.  Written with the
stride of four unrolled so that the recursion is structural. -/
def slice4 : List Nat → List (List Nat)
  | [] => []
  | [a] => [[a]]
  | [a, b] => [[a, b]]
  | [a, b, c] => [[a, b, c]]
  | a :: b :: c :: d :: rest => [a, b, c, d] :: slice4 rest

/-- `RGAClient._decode_spectrum` (driver.py lines 601-612), with the session
fields it reads (scan window and the two sensitivity factors) passed
explicitly.  Mirrors the source order: slice into 4-byte frames, generate the
mass axis and round each entry to two decimals, decode every non-final frame
to a partial pressure (eagerly, so a frame-decode failure surfaces first),
then compare the axis length with the sample count, then decode the final
frame to the total pressure. -/
def _decode_spectrum (amu_min amu_max amu_res : Int) (psens tsens : Rat)
    (spectrum_bytes : List Nat) : Except PyError (List Rat × List Rat × Rat) := do
  let sliced := slice4 spectrum_bytes
  let spec_amu := (seq (amu_min : Rat) (amu_max : Rat) (1 / (amu_res : Rat))).map pyRound2
  let spec_pres ← sliced.dropLast.mapM (_current_to_partial_pressure psens)
  if spec_amu.length ≠ spec_pres.length then
    throw (.rga "Cannot parse spectrum")
  else
    match sliced.getLast? with
    | none => throw .indexError
    | some lastFrame => do
      let spec_pres_sum ← _current_to_total_pressure tsens lastFrame
      return (spec_amu, spec_pres, spec_pres_sum)

theorem pyRound_intCast (n : Int) : pyRound (n : Rat) = n := by
  unfold pyRound
  simp only [Int.floor_intCast, sub_self]
  norm_num

theorem pyRound2_intCast (n : Int) : pyRound2 (n : Rat) = n := by
  unfold pyRound2
  have h : ((n : Rat)) * 100 = ((n * 100 : Int) : Rat) := by push_cast; ring
  rw [h, pyRound_intCast]
  push_cast
  norm_num [mul_div_assoc]


theorem get_range_map_append {a : Type} (f : Nat → a) (x : a) (N i : Nat) (hi : i ≤ N) :
    ((List.range N).map f ++ [x]).get? i = some (if i = N then x else f i) := by
  rcases Nat.lt_or_ge i N with hlt | hge
  · rw [List.get?_append (by simpa using hlt), List.get?_map, List.get?_range hlt]
    simp [Nat.ne_of_lt hlt]
  · have hie : i = N := le_antisymm hi hge
    subst hie
    rw [List.get?_append_right (by simp)]
    simp

theorem seq_int_window (mn mx rs : Int) (h1 : mn < mx) (h2 : 1 ≤ rs) :
    (seq (mn : Rat) (mx : Rat) (1 / (rs : Rat))).length
        = ((mx - mn) * rs).toNat + 1 ∧
    ∀ i : Nat, i ≤ ((mx - mn) * rs).toNat →
      (seq (mn : Rat) (mx : Rat) (1 / (rs : Rat))).get? i
        = some ((mn : Rat) + (i : Rat) / (rs : Rat)) := by
  have hrs0 : ((rs : Rat)) ≠ 0 := Int.cast_ne_zero.mpr (by omega)
  have harg : ((mx : Rat) - (mn : Rat)) / (1 / (rs : Rat))
      = (((mx - mn) * rs : Int) : Rat) := by
    rw [div_div_eq_mul_div, div_one]
    push_cast
    ring
  have hNnn : (0 : Int) ≤ (mx - mn) * rs := mul_nonneg (by omega) (by omega)
  set N := ((mx - mn) * rs).toNat with hN
  have hNcast : ((N : Nat) : Rat) = ((mx : Rat) - (mn : Rat)) * (rs : Rat) := by
    have h3 : ((N : Nat) : Int) = (mx - mn) * rs := Int.toNat_of_nonneg hNnn
    have h4 : (((N : Nat) : Int) : Rat) = (((mx - mn) * rs : Int) : Rat) := by rw [h3]
    push_cast at h4
    exact h4
  have hseq : seq (mn : Rat) (mx : Rat) (1 / (rs : Rat))
      = (List.range N).map (fun i : Nat => (mn : Rat) + 1 / (rs : Rat) * (i : Rat))
          ++ [(mx : Rat)] := by
    unfold seq
    rw [harg, pyRound_intCast]
  rw [hseq]
  refine ⟨by rw [List.length_append, List.length_map, List.length_range]; rfl, ?_⟩
  intro i hi
  rw [get_range_map_append _ _ _ _ hi]
  by_cases hie : i = N
  · subst hie
    rw [if_pos rfl]
    have : (mx : Rat) = (mn : Rat) + ((N : Nat) : Rat) / (rs : Rat) := by
      rw [hNcast]
      field_simp
    rw [this]
  · rw [if_neg hie]
    rw [one_div, inv_mul_eq_div]

theorem slice4_dropLast_length (bs : List Nat) :
    ∀ l ∈ (slice4 bs).dropLast, l.length = 4 := by
  induction bs using slice4.induct with
  | case1 => simp [slice4]
  | case2 a => simp [slice4]
  | case3 a b => simp [slice4]
  | case4 a b c => simp [slice4]
  | case5 a b c d rest ih =>
    show ∀ l ∈ ([a, b, c, d] :: slice4 rest).dropLast, l.length = 4
    rcases hrest : slice4 rest with _ | ⟨t, rl⟩
    · simp [hrest]
    · intro l hl
      rw [List.dropLast_cons_of_ne_nil (by simp)] at hl
      rcases List.mem_cons.mp hl with hhd | htl
      · subst hhd
        rfl
      · rw [hrest] at ih
        exact ih l htl

theorem mapM_ok_of_all_ok {a b : Type} (f : a → Except PyError b) :
    ∀ L : List a, (∀ l ∈ L, ∃ q, f l = .ok q) →
      ∃ ps : List b, L.mapM f = .ok ps ∧ ps.length = L.length := by
  intro L
  induction L with
  | nil => intro _; exact ⟨[], rfl, rfl⟩
  | cons x t ih =>
    intro h
    obtain ⟨q, hq⟩ := h x (by simp)
    obtain ⟨ps, hps, hlen⟩ := ih (fun l hl => h l (by simp [hl]))
    refine ⟨q :: ps, ?_, by simp [hlen]⟩
    rw [List.mapM_cons, hq, hps]
    rfl

theorem current_ok_of_length_four (sens : Rat) (l : List Nat) (h : l.length = 4) :
    ∃ q, _current_to_partial_pressure sens l = .ok q := by
  rcases l with _ | ⟨a, _ | ⟨b, _ | ⟨c, _ | ⟨d, _ | ⟨e, tl⟩⟩⟩⟩⟩ <;>
    first | (exact ⟨_, rfl⟩) | simp at h

theorem int_window_last (mn mx rs : Int) (h1 : mn < mx) (h2 : 1 ≤ rs) :
    (mn : Rat) + ((((mx - mn) * rs).toNat : Nat) : Rat) / (rs : Rat) = (mx : Rat) := by
  have hrs0 : ((rs : Rat)) ≠ 0 := Int.cast_ne_zero.mpr (by omega)
  have hNnn : (0 : Int) ≤ (mx - mn) * rs := mul_nonneg (by omega) (by omega)
  have h3 : ((((mx - mn) * rs).toNat : Nat) : Int) = (mx - mn) * rs := Int.toNat_of_nonneg hNnn
  have h4 : ((((mx - mn) * rs).toNat : Nat) : Rat) = ((mx : Rat) - (mn : Rat)) * (rs : Rat) := by
    have h5 : (((((mx - mn) * rs).toNat : Nat) : Int) : Rat) = (((mx - mn) * rs : Int) : Rat) := by
      rw [h3]
    push_cast at h5
    exact h5
  rw [h4]
  field_simp

theorem except_error_bind {e a b : Type} (x : e) (f : a → Except e b) :
    (Except.error x >>= f) = Except.error x := rfl

theorem except_ok_bind {e a b : Type} (v : a) (f : a → Except e b) :
    (Except.ok v >>= f) = f v := rfl

theorem decode_spectrum_ok_axis (mn mx rs : Int) (ps ts : Rat) (bs : List Nat)
    (r : List Rat × List Rat × Rat)
    (h : _decode_spectrum mn mx rs ps ts bs = .ok r) :
    r.1 = (seq (mn : Rat) (mx : Rat) (1 / (rs : Rat))).map pyRound2 := by
  unfold _decode_spectrum at h
  dsimp only at h
  rcases hm : List.mapM (_current_to_partial_pressure ps) (slice4 bs).dropLast
    with e2 | ps2 <;> rw [hm] at h
  · rw [except_error_bind] at h
    exact Except.noConfusion h
  · rw [except_ok_bind] at h
    split at h
    · exact Except.noConfusion h
    · rcases hl : (slice4 bs).getLast? with _ | lf <;> rw [hl] at h <;> dsimp only at h
      · exact Except.noConfusion h
      · rcases ht : _current_to_total_pressure ts lf with e3 | tot <;> rw [ht] at h
        · rw [except_error_bind] at h
          exact Except.noConfusion h
        · rw [except_ok_bind] at h
          rw [show (pure ((seq (mn : Rat) (mx : Rat) (1 / (rs : Rat))).map pyRound2,
              ps2, tot) : Except PyError (List Rat × List Rat × Rat))
              = Except.ok ((seq (mn : Rat) (mx : Rat) (1 / (rs : Rat))).map pyRound2,
              ps2, tot) from rfl] at h
          cases h
          rfl

/-- C7 (amended): for every installed scan window the generated mass axis has
exactly `(max - min) * res + 1` entries; the underlying `seq` points are
evenly spaced by `1/res` from `min` to `max` (entry i is `min + i/res`), and
the published axis is their two-decimal rounding — so spacing of exactly
`1/res` survives the rounding only when `1/res` is a multiple of `0.01`; the
first and last published entries are exactly `min` and `max`; every
successfully decoded spectrum carries exactly this axis; and whenever the
axis length differs from the number of decoded non-final 4-byte frames,
`_decode_spectrum` fails with the Cannot-parse-spectrum `RGAException`. -/
theorem C7_mass_axis_structure (mn mx rs : Int) (psens tsens : Rat) (bs : List Nat)
    (hmn : 1 ≤ mn) (h1 : mn < mx) (h2 : 10 ≤ rs) (h3 : rs ≤ 25)
    (hmm : ((mx - mn) * rs).toNat + 1 ≠ (slice4 bs).dropLast.length) :
    ((seq (mn : Rat) (mx : Rat) (1 / (rs : Rat))).map pyRound2).length
        = ((mx - mn) * rs).toNat + 1 ∧
    (∀ i : Nat, i ≤ ((mx - mn) * rs).toNat →
      (seq (mn : Rat) (mx : Rat) (1 / (rs : Rat))).get? i
          = some ((mn : Rat) + (i : Rat) / (rs : Rat)) ∧
      ((seq (mn : Rat) (mx : Rat) (1 / (rs : Rat))).map pyRound2).get? i
          = some (pyRound2 ((mn : Rat) + (i : Rat) / (rs : Rat)))) ∧
    ((seq (mn : Rat) (mx : Rat) (1 / (rs : Rat))).map pyRound2).get? 0
        = some ((mn : Rat)) ∧
    ((seq (mn : Rat) (mx : Rat) (1 / (rs : Rat))).map pyRound2).get?
        (((mx - mn) * rs).toNat) = some ((mx : Rat)) ∧
    (∀ bs2 r, _decode_spectrum mn mx rs psens tsens bs2 = .ok r →
      r.1 = (seq (mn : Rat) (mx : Rat) (1 / (rs : Rat))).map pyRound2) ∧
    _decode_spectrum mn mx rs psens tsens bs
        = .error (.rga "Cannot parse spectrum") := by
  obtain ⟨hlenS, hgetS⟩ := seq_int_window mn mx rs h1 (by omega)
  have hmapget : ∀ i : Nat, i ≤ ((mx - mn) * rs).toNat →
      ((seq (mn : Rat) (mx : Rat) (1 / (rs : Rat))).map pyRound2).get? i
        = some (pyRound2 ((mn : Rat) + (i : Rat) / (rs : Rat))) := by
    intro i hi
    rw [List.get?_map, hgetS i hi]
    rfl
  have hlenM : ((seq (mn : Rat) (mx : Rat) (1 / (rs : Rat))).map pyRound2).length
      = ((mx - mn) * rs).toNat + 1 := by
    rw [List.length_map, hlenS]
  refine ⟨hlenM, fun i hi => ⟨hgetS i hi, hmapget i hi⟩, ?_, ?_,
    fun bs2 r h => decode_spectrum_ok_axis mn mx rs psens tsens bs2 r h, ?_⟩
  · rw [hmapget 0 (by omega)]
    norm_num [pyRound2_intCast mn]
  · rw [hmapget _ le_rfl, int_window_last mn mx rs h1 (by omega), pyRound2_intCast]
  · have hall : ∀ l ∈ (slice4 bs).dropLast,
        ∃ q, _current_to_partial_pressure psens l = .ok q :=
      fun l hl => current_ok_of_length_four psens l (slice4_dropLast_length bs l hl)
    obtain ⟨ps, hps, hlenps⟩ :=
      mapM_ok_of_all_ok (_current_to_partial_pressure psens) _ hall
    unfold _decode_spectrum
    dsimp only
    rw [hps]
    have hcond : ((seq (mn : Rat) (mx : Rat) (1 / (rs : Rat))).map pyRound2).length
        ≠ ps.length := by
      rw [hlenM, hlenps]
      exact hmm
    rw [show ∀ (x : List Rat) (f : List Rat → Except PyError (List Rat × List Rat × Rat)),
        (Except.ok x >>= f) = f x from fun _ _ => rfl]
    rw [if_pos hcond]
    rfl

/-- Witness for C7 at the spec window (10, 20, 10 steps/AMU): 101 axis
entries, and decoding an empty payload fails with the length-mismatch
`RGAException`. -/
theorem C7_mass_axis_structure_witness :
    ((seq ((10 : Int) : Rat) ((20 : Int) : Rat) (1 / ((10 : Int) : Rat))).map
        pyRound2).length = (((20 : Int) - 10) * 10).toNat + 1 ∧
    _decode_spectrum 10 20 10 1 1 [] = .error (.rga "Cannot parse spectrum") := by
  have h := C7_mass_axis_structure 10 20 10 1 1 []
    (by norm_num) (by norm_num) (by norm_num) (by norm_num) (by decide)
  exact ⟨h.1, h.2.2.2.2.2⟩

theorem pyRound2_ten_one_sixteenth : pyRound2 ((10 : Rat) + 1 / 16) = 503 / 50 := by
  unfold pyRound2 pyRound
  have h1 : ((10 : Rat) + 1 / 16) * 100 = 4025 / 4 := by norm_num
  rw [h1]
  have h2 : ⌊(4025 : Rat) / 4⌋ = 1006 := by
    rw [Int.floor_eq_iff]
    norm_num
  rw [h2]
  rw [if_pos (by norm_num)]
  norm_num

/-- C7 counterexample to the claim as stated: with the installed window
(min = 10, max = 11, resolution = 16) the mass axis generated during spectrum
decoding is NOT evenly spaced by 1/resolution: each entry is rounded to two
decimals, so entry 1 is 10.06 = 503/50 while entry 0 is 10, a gap of 0.06
rather than 1/16 = 0.0625. -/
theorem C7_counterexample_axis_spacing :
    ((seq ((10 : Int) : Rat) ((11 : Int) : Rat) (1 / ((16 : Int) : Rat))).map
        pyRound2).get? 0 = some ((10 : Rat)) ∧
    ((seq ((10 : Int) : Rat) ((11 : Int) : Rat) (1 / ((16 : Int) : Rat))).map
        pyRound2).get? 1 = some ((503 : Rat) / 50) ∧
    (503 : Rat) / 50 - 10 ≠ 1 / 16 := by
  obtain ⟨hlen, hget⟩ := seq_int_window 10 11 16 (by norm_num) (by norm_num)
  have h0 := hget 0 (by decide)
  have h1 := hget 1 (by decide)
  refine ⟨?_, ?_, by norm_num⟩
  · have hv : ((10 : Int) : Rat) + ((0 : Nat) : Rat) / ((16 : Int) : Rat)
        = ((10 : Int) : Rat) := by norm_num
    rw [List.get?_map, h0, hv]
    show some (pyRound2 ((10 : Int) : Rat)) = some ((10 : Rat))
    rw [pyRound2_intCast 10]
    norm_num
  · have hv : ((10 : Int) : Rat) + ((1 : Nat) : Rat) / ((16 : Int) : Rat)
        = (10 : Rat) + 1 / 16 := by
      push_cast
      ring
    rw [List.get?_map, h1, hv]
    show some (pyRound2 ((10 : Rat) + 1 / 16)) = some ((503 : Rat) / 50)
    rw [pyRound2_ten_one_sixteenth]

/-- `RGAClient._NOISE_FLOORS_ALLOWED`. -/
def NOISE_FLOORS_ALLOWED : List Int := [0, 1, 2, 3, 4, 5, 6, 7]

/-- `RGAClient._EMISSION_CURRENTS_ALLOWED = seq(_EMISSION_CURRENT_MIN,
_EMISSION_CURRENT_MAX, _EMISSION_CURRENT_INC) = seq(0.0, 3.5, 0.02)`. -/
def EMISSION_CURRENTS_ALLOWED : List Rat := seq 0 (7/2) (1/50)

/-- `RGAClient.set_noise_floor` (driver.py lines 503-533), as a function of the
requested value (`none` models the "default" sentinel) and the `NF?` readback.
The stored `_noise_floor` is assigned before the readback comparison, so it
keeps the new value even when the comparison raises.  The invalid-value branch
formats an error message holding two conversion specifiers against the single
list operand `self._NOISE_FLOORS_ALLOWED` (the offending value is a stray
second argument to the exception constructor, not a format operand), so the
attempted `RGAException` raise surfaces as a `TypeError` instead. -/
def set_noise_floor (s : Session) (noise_floor : Option Int) (readback : Int) :
    Except PyError Unit × Session × List Cmd :=
  match noise_floor with
  | none =>
    let s1 := { s with noise_floor := 4 }
    if readback ≠ s1.noise_floor then
      (.error (.rga "Noise floor setting readback differs from setpoint"), s1,
        [⟨"NF", .star⟩, ⟨"NF", .query⟩])
    else (.ok (), s1, [⟨"NF", .star⟩, ⟨"NF", .query⟩])
  | some v =>
    if v ∈ NOISE_FLOORS_ALLOWED then
      let s1 := { s with noise_floor := v }
      if readback ≠ s1.noise_floor then
        (.error (.rga "Noise floor setting readback differs from setpoint"), s1,
          [⟨"NF", .int v⟩, ⟨"NF", .query⟩])
      else (.ok (), s1, [⟨"NF", .int v⟩, ⟨"NF", .query⟩])
    else
      match pyFormatArgs 2 1 "Noise floor must be equal to one of allowed values" with
      | .ok msg => (.error (.rga msg), s, [])
      | .error e => (.error e, s, [])

/-- `RGAClient.set_partial_sens` (driver.py lines 210-227): the default
sentinel queries `SP?` and stores the device value; an explicit value is
validated against [0, 10] and stored in the session — no set command is sent
to the device and no readback comparison is made. -/
def set_partial_sens (s : Session) (value : Option Rat) (device_stored : Rat) :
    Except PyError Unit × Session × List Cmd :=
  match value with
  | none =>
    (.ok (), { s with partial_sens_mA_per_Torr := device_stored }, [⟨"SP", .query⟩])
  | some v =>
    if v < 0 ∨ v > 10 then
      (.error (.rga "Partial pressure sensitivity setting is ouside of allowed bounds"),
        s, [])
    else (.ok (), { s with partial_sens_mA_per_Torr := v }, [])

/-- `RGAClient.set_total_sens` (driver.py lines 234-249): same shape as
`set_partial_sens` with bounds [0, 100] and the `ST?` query. -/
def set_total_sens (s : Session) (value : Option Rat) (device_stored : Rat) :
    Except PyError Unit × Session × List Cmd :=
  match value with
  | none =>
    (.ok (), { s with total_sens_mA_per_Torr := device_stored }, [⟨"ST", .query⟩])
  | some v =>
    if v < 0 ∨ v > 100 then
      (.error (.rga "Total pressure sensitivity setting is ouside of allowed bounds"),
        s, [])
    else (.ok (), { s with total_sens_mA_per_Torr := v }, [])

/-- `RGAClient.set_electron_energy` (driver.py lines 256-278): validate,
store `_electron_energy_eV`, send `EE` (a status-reporting command, so the
status byte is read and checked), query `EE?` and require exact equality of
the readback. -/
def set_electron_energy (s : Session) (value : Option Int) (status_byte : Nat)
    (readback : Int) : Except PyError Unit × Session × List Cmd :=
  match value with
  | none =>
    let s1 := { s with electron_energy := 70 }
    match _check_status_byte s1.cdem_present status_byte with
    | some e => (.error (.rga e), s1, [⟨"EE", .star⟩])
    | none =>
      if readback ≠ s1.electron_energy then
        (.error (.rga "Electron energy setting readback differs from setpoint"), s1,
          [⟨"EE", .star⟩, ⟨"EE", .query⟩])
      else (.ok (), s1, [⟨"EE", .star⟩, ⟨"EE", .query⟩])
  | some v =>
    if v < 25 ∨ v > 105 then
      (.error (.rga "Electron energy setting is ouside of allowed bounds"), s, [])
    else
      let s1 := { s with electron_energy := v }
      match _check_status_byte s1.cdem_present status_byte with
      | some e => (.error (.rga e), s1, [⟨"EE", .int v⟩])
      | none =>
        if readback ≠ s1.electron_energy then
          (.error (.rga "Electron energy setting readback differs from setpoint"), s1,
            [⟨"EE", .int v⟩, ⟨"EE", .query⟩])
        else (.ok (), s1, [⟨"EE", .int v⟩, ⟨"EE", .query⟩])

/-- `RGAClient._ION_ENERGIES_ALLOWED = {8: 0, 12: 1}` (eV to device code),
as an association list. -/
def ION_ENERGIES_ALLOWED : List (Int × Int) := [(8, 0), (12, 1)]

/-- `RGAClient.get_ion_energy` (driver.py lines 309-313) as a function of the
integer read back from `IE?` (the `IE?` frame itself is recorded by the
caller): the inverse lookup
`next(key for key, value in self._ION_ENERGIES_ALLOWED.items() if value == ie)`;
a device code with no matching eV key makes the bare `next(...)` raise
`StopIteration`. -/
def get_ion_energy (ie : Int) : Except PyError Int :=
  match ION_ENERGIES_ALLOWED.find? (fun p => p.2 == ie) with
  | some p => .ok p.1
  | none => .error .stopIteration

/-- `RGAClient.set_ion_energy` (driver.py lines 285-307): validate membership
of the eV value in `_ION_ENERGIES_ALLOWED`, store `_ion_energy_eV`, send `IE`
with the mapped DEVICE CODE (a status-reporting command, so the status byte
is read and checked), then query `IE?`, inverse-map the readback and require
exact equality with the stored eV value. -/
def set_ion_energy (s : Session) (value : Option Int) (status_byte : Nat)
    (ie_rb : Int) : Except PyError Unit × Session × List Cmd :=
  match value with
  | none =>
    let s1 := { s with ion_energy := 12 }
    match _check_status_byte s1.cdem_present status_byte with
    | some e => (.error (.rga e), s1, [⟨"IE", .star⟩])
    | none =>
      match get_ion_energy ie_rb with
      | .error e => (.error e, s1, [⟨"IE", .star⟩, ⟨"IE", .query⟩])
      | .ok w =>
        if w ≠ s1.ion_energy then
          (.error (.rga "Ion energy setting readback differs from setpoint"), s1,
            [⟨"IE", .star⟩, ⟨"IE", .query⟩])
        else (.ok (), s1, [⟨"IE", .star⟩, ⟨"IE", .query⟩])
  | some v =>
    match ION_ENERGIES_ALLOWED.find? (fun p => p.1 == v) with
    | none =>
      (.error (.rga "Ion energy must be equal to one of allowed values"), s, [])
    | some p =>
      let s1 := { s with ion_energy := v }
      match _check_status_byte s1.cdem_present status_byte with
      | some e => (.error (.rga e), s1, [⟨"IE", .int p.2⟩])
      | none =>
        match get_ion_energy ie_rb with
        | .error e => (.error e, s1, [⟨"IE", .int p.2⟩, ⟨"IE", .query⟩])
        | .ok w =>
          if w ≠ s1.ion_energy then
            (.error (.rga "Ion energy setting readback differs from setpoint"), s1,
              [⟨"IE", .int p.2⟩, ⟨"IE", .query⟩])
          else (.ok (), s1, [⟨"IE", .int p.2⟩, ⟨"IE", .query⟩])

/-- `RGAClient.set_plate_voltage` (driver.py lines 315-339): validate the
[0, 150] bounds, store `_plate_voltage_V`, send `VF` with the NEGATED value
(a status-reporting command, so the status byte is read and checked), then
query `VF?` and require exact equality of the (un-negated) readback with the
stored setpoint. -/
def set_plate_voltage (s : Session) (value : Option Int) (status_byte : Nat)
    (readback : Int) : Except PyError Unit × Session × List Cmd :=
  match value with
  | none =>
    let s1 := { s with plate_voltage := 90 }
    match _check_status_byte s1.cdem_present status_byte with
    | some e => (.error (.rga e), s1, [⟨"VF", .star⟩])
    | none =>
      if readback ≠ s1.plate_voltage then
        (.error (.rga "Focus plate voltage setting readback differs from setpoint"),
          s1, [⟨"VF", .star⟩, ⟨"VF", .query⟩])
      else (.ok (), s1, [⟨"VF", .star⟩, ⟨"VF", .query⟩])
  | some v =>
    if v < 0 ∨ v > 150 then
      (.error (.rga "Focus plate voltage setting is outside of allowed bounds"), s, [])
    else
      let s1 := { s with plate_voltage := v }
      match _check_status_byte s1.cdem_present status_byte with
      | some e => (.error (.rga e), s1, [⟨"VF", .int (-v)⟩])
      | none =>
        if readback ≠ s1.plate_voltage then
          (.error (.rga "Focus plate voltage setting readback differs from setpoint"),
            s1, [⟨"VF", .int (-v)⟩, ⟨"VF", .query⟩])
        else (.ok (), s1, [⟨"VF", .int (-v)⟩, ⟨"VF", .query⟩])

/-- `RGAClient.set_emission_current` (driver.py lines 392-413): validation
only.  The default branch records the 1.0 mA default in
`_emission_current_mA`; the explicit branch validates the [0, 3.5] bounds
and membership in the 0.02-stepped allowed list but then neither stores the
value nor sends any command — the method body ends after validation. -/
def set_emission_current (s : Session) (value : Option Rat) :
    Except PyError Unit × Session × List Cmd :=
  match value with
  | none => (.ok (), { s with emission_current := some 1 }, [])
  | some v =>
    if v < 0 ∨ v > 7/2 then
      (.error (.rga "Emission current setting is ouside of allowed bounds"), s, [])
    else if v ∉ EMISSION_CURRENTS_ALLOWED then
      (.error (.rga "Emission current setting must be specified with increment of 0.02 mA"),
        s, [])
    else (.ok (), s, [])

/-- The shared tail of `set_cdem_voltage` (driver.py lines 487-493): after
`HV` was sent (a status-reporting command, so the status byte is checked),
query `HV?` and require
`self._cedm_voltage_V * 0.9 <= readback <= self._cedm_voltage_V * 1.1`. -/
def cdemVerify (s1 : Session) (a : Arg) (status_byte : Nat) (readback : Int) :
    Except PyError Unit × Session × List Cmd :=
  match _check_status_byte s1.cdem_present status_byte with
  | some e => (.error (.rga e), s1, [⟨"HV", a⟩])
  | none =>
    if ¬((s1.cedm_voltage : Rat) * (9/10) ≤ (readback : Rat) ∧
        (readback : Rat) ≤ (s1.cedm_voltage : Rat) * (11/10)) then
      (.error (.rga "CDEM voltage setting readback differs from setpoint"), s1,
        [⟨"HV", a⟩, ⟨"HV", .query⟩])
    else (.ok (), s1, [⟨"HV", a⟩, ⟨"HV", .query⟩])

/-- `RGAClient.set_cdem_voltage` (driver.py lines 463-493): a no-op when no
CDEM is installed; the value 0 (Faraday-cup detection) skips the [10, 2490]
bound validation but still stores 0 and goes through the same send-and-verify
tail, whose tolerance band around 0 collapses to requiring an exactly-zero
readback. -/
def set_cdem_voltage (s : Session) (value : Option Int) (status_byte : Nat)
    (readback : Int) : Except PyError Unit × Session × List Cmd :=
  if s.cdem_present = false then (.ok (), s, [])
  else
    match value with
    | none => cdemVerify { s with cedm_voltage := 1400 } Arg.star status_byte readback
    | some v =>
      if v = 0 then
        cdemVerify { s with cedm_voltage := 0 } (Arg.int 0) status_byte readback
      else if v < 10 ∨ v > 2490 then
        (.error (.rga "CDEM voltage setting is outside of allowed bounds"), s, [])
      else cdemVerify { s with cedm_voltage := v } (Arg.int v) status_byte readback

/-- `RGAClient.turn_on_filament` (driver.py lines 429-445).  The method first
evaluates `self._emission_current_mA` (an `AttributeError` when no code path
ever assigned it), sets `_filament_status = True` BEFORE sending `FL` and
before any verification, and on a readback outside the ±0.02 mA band
formats a message holding two conversion specifiers against the single
operand `emission_current_mA_readback` (the setpoint is a stray second
constructor argument), so the raise surfaces as a `TypeError` — with the
filament flag left `True`. -/
def turn_on_filament (s : Session) (status_byte : Nat) (readback : Rat) :
    Except PyError Unit × Session × List Cmd :=
  match s.emission_current with
  | none => (.error .attributeError, s, [])
  | some cur =>
    let s1 := { s with filament_status := true }
    match _check_status_byte s1.cdem_present status_byte with
    | some e => (.error (.rga e), s1, [⟨"FL", .rat cur⟩])
    | none =>
      if readback < cur - 1/50 ∨ readback > cur + 1/50 then
        match pyFormatArgs 2 1
            "Emission current setting readback differs from setpoint" with
        | .ok msg => (.error (.rga msg), s1, [⟨"FL", .rat cur⟩, ⟨"FL", .query⟩])
        | .error e => (.error e, s1, [⟨"FL", .rat cur⟩, ⟨"FL", .query⟩])
      else (.ok (), s1, [⟨"FL", .rat cur⟩, ⟨"FL", .query⟩])

/-- `RGAClient.turn_off_filament` (driver.py lines 447-461): sets
`_filament_status = False`, sends `FL0.0`, then tries to confirm the `FL?`
readback below 0.02 mA, returning `True` on success.  A failing readback
query (`readback = none`) is swallowed by the bare `except:` and, like a
non-negligible readback, falls through to the hard `RGAException`. -/
def turn_off_filament (s : Session) (status_byte : Nat) (readback : Option Rat) :
    Except PyError Bool × Session × List Cmd :=
  let s1 := { s with filament_status := false }
  match _check_status_byte s1.cdem_present status_byte with
  | some e => (.error (.rga e), s1, [⟨"FL", .rat 0⟩])
  | none =>
    match readback with
    | some cur =>
      if cur < 0 + 1/50 then (.ok true, s1, [⟨"FL", .rat 0⟩, ⟨"FL", .query⟩])
      else
        (.error (.rga "Cannot confirm that the filament is off! Turn off RGA before venting the system!"),
          s1, [⟨"FL", .rat 0⟩, ⟨"FL", .query⟩])
    | none =>
      (.error (.rga "Cannot confirm that the filament is off! Turn off RGA before venting the system!"),
        s1, [⟨"FL", .rat 0⟩, ⟨"FL", .query⟩])

/-- `RGAClient.set_spectrogram_params` (driver.py lines 346-380): validate the
window, store it, send `MI`, `MF`, `SA` (none of them status-reporting), then
query all three back and require exact equality of the triple. -/
def set_spectrogram_params (s : Session) (amu_min amu_max amu_res : Int)
    (mi_rb mf_rb sa_rb : Int) : Except PyError Unit × Session × List Cmd :=
  if amu_min < 1 ∨ amu_max > s.amu_scan_max then
    (.error (.rga "AMU values are outside of allowed bounds"), s, [])
  else if amu_min ≥ amu_max then
    (.error (.rga "AMU min value must be lower than AMU max value"), s, [])
  else if amu_res < 10 ∨ amu_res > 25 then
    (.error (.rga "AMU resolution is outside of allowed bounds"), s, [])
  else
    let s1 := { s with
      amu_min := some amu_min
      amu_max := some amu_max
      amu_res := some amu_res }
    let sent := [⟨"MI", .int amu_min⟩, ⟨"MF", .int amu_max⟩, ⟨"SA", .int amu_res⟩,
      (⟨"MI", .query⟩ : Cmd), ⟨"MF", .query⟩, ⟨"SA", .query⟩]
    if mi_rb ≠ amu_min ∨ mf_rb ≠ amu_max ∨ sa_rb ≠ amu_res then
      (.error (.rga "Spectrogram parameters readback differ from setpoints"), s1, sent)
    else (.ok (), s1, sent)

/-- `RGAClient.read_spectrum` (driver.py lines 157-169): raise before any
transport write when the filament flag is off; install the requested window
with `set_spectrogram_params` only when it differs from the stored one; then
compute `spectrum_len = (amu_max - amu_min) * amu_res + 1` samples plus one
total-pressure sample of 4 bytes each from the stored window, send `SC1`,
read that many bytes through the Chunked Reader (attempt budget 1000) and
decode the complete payload.  The fourth component of the result records the
byte count requested from the Chunked Reader (`none` when it is never
reached); the `out-of-fuel` branch of the reader model is unreachable by
`read_buffer_chunked_isSome`. -/
def read_spectrum (s : Session) (amu_min amu_max amu_res : Int)
    (mi_rb mf_rb sa_rb : Int) (avail stream : Nat → Nat) :
    Except PyError (List Rat × List Rat × Rat) × Session × List Cmd × Option Nat :=
  if s.filament_status = false then
    (.error (.rga "Filament is off! Turn on filament first!"), s, [], none)
  else
    let step2 : Except PyError Unit × Session × List Cmd :=
      if s.amu_min ≠ some amu_min ∨ s.amu_max ≠ some amu_max ∨
          s.amu_res ≠ some amu_res then
        set_spectrogram_params s amu_min amu_max amu_res mi_rb mf_rb sa_rb
      else (.ok (), s, [])
    match step2 with
    | (.error e, s1, sent) => (.error e, s1, sent, none)
    | (.ok _, s1, sent) =>
      match s1.amu_min, s1.amu_max, s1.amu_res with
      | some a, some b, some r =>
        let spectrum_len : Int := (b - a) * r + 1
        let spectrum_bytes : Nat := (4 * (spectrum_len + 1)).toNat
        let sent1 := sent ++ [⟨"SC", .str "1"⟩]
        match _read_buffer_chunked avail stream spectrum_bytes 1000 with
        | some (.ok bs) =>
          (_decode_spectrum a b r s1.partial_sens_mA_per_Torr
              s1.total_sens_mA_per_Torr bs, s1, sent1, some spectrum_bytes)
        | some .timeout =>
          (.error (.rga "Failed to receive buffer"), s1, sent1, some spectrum_bytes)
        | none => (.error (.rga "out of fuel"), s1, sent1, some spectrum_bytes)
      | _, _, _ => (.error .typeError, s1, sent, none)

/-- A concrete session used by concrete instantiations: CDEM present,
filament off, model SRSRGA100 defaults. -/
def s0 : Session := {
  cdem_present := true
  filament_status := false
  amu_scan_max := 100
  electron_energy := 70
  ion_energy := 12
  plate_voltage := 90
  noise_floor := 4
  partial_sens_mA_per_Torr := 1
  total_sens_mA_per_Torr := 1
  emission_current := some 1
  cedm_voltage := 0
  amu_min := none
  amu_max := none
  amu_res := none }

theorem one_mem_emission_allowed : (1 : Rat) ∈ EMISSION_CURRENTS_ALLOWED := by
  unfold EMISSION_CURRENTS_ALLOWED seq
  have h1 : ((7 : Rat)/2 - 0) / (1/50) = ((175 : Int) : Rat) := by norm_num
  rw [h1, pyRound_intCast]
  apply List.mem_append_left
  refine List.mem_map.mpr ⟨50, ?_, by push_cast; norm_num⟩
  rw [List.mem_range]
  norm_num

/-- C4 (code_bug evidence): for any requested noise floor outside the allowed
list, `set_noise_floor` writes nothing to the transport, but the failure is a
`TypeError` escaping from the malformed %-formatting of the message — not an
`RGAException` describing the violated constraint as the claim (and the class
docstring) require. -/
theorem C4_noise_floor_validation_typeerror (s : Session) (v readback : Int)
    (hv : v ∉ NOISE_FLOORS_ALLOWED) :
    set_noise_floor s (some v) readback = (.error .typeError, s, []) := by
  unfold set_noise_floor
  dsimp only
  rw [if_neg hv]
  rfl

/-- Witness for C4 at the out-of-range noise floor 9. -/
theorem C4_noise_floor_validation_typeerror_witness :
    set_noise_floor s0 (some 9) 4 = (.error .typeError, s0, []) :=
  C4_noise_floor_validation_typeerror s0 9 4 (by decide)

/-- C2 counterexample: setting the partial-pressure sensitivity to the
in-domain value 5 mA/Torr sends NO command and issues NO readback query —
the validated value is simply stored in the session — contradicting the
claim that every mutable-parameter set sends the set command, queries it
back and compares. -/
theorem C2_counterexample_sens_no_send :
    set_partial_sens s0 (some 5) 0
      = (.ok (), { s0 with partial_sens_mA_per_Torr := 5 }, []) := by
  unfold set_partial_sens
  dsimp only
  rw [if_neg (by norm_num)]

/-- C2 (amended): the set-then-verify template holds for every parameter
that talks to the device — electron energy, ion energy (whose eV value is
sent as its mapped device code), plate voltage (sent negated), CDEM voltage
(with its ±10 percent band), the noise floor and the scan window: for every
in-domain value the set command(s) and the matching quer(ies) are all sent,
a readback matching under the parameter rule succeeds and a mismatched one
raises the readback `RGAException`, and the value is stored in the session
either way.  The sensitivities and the emission current deviate from the
template: an in-domain partial or total sensitivity is stored in the session
with no device exchange at all, and an in-domain emission current is neither
sent nor even stored — its send-and-verify happens later in
`turn_on_filament`. -/
theorem C2_set_then_verify (s : Session) (v n vi pv cv : Int) (sb : Nat)
    (rb nrb ie_rb pv_rb cv_rb : Int) (q d c t : Rat) (mn mx rs mi mf sa : Int)
    (hv1 : 25 ≤ v) (hv2 : v ≤ 105)
    (hvi : vi = 8 ∨ vi = 12)
    (hpv1 : 0 ≤ pv) (hpv2 : pv ≤ 150)
    (hcv1 : 10 ≤ cv) (hcv2 : cv ≤ 2490)
    (hn : n ∈ NOISE_FLOORS_ALLOWED)
    (hq1 : 0 ≤ q) (hq2 : q ≤ 10) (ht1 : 0 ≤ t) (ht2 : t ≤ 100)
    (hc1 : 0 ≤ c) (hc2 : c ≤ 7/2) (hc3 : c ∈ EMISSION_CURRENTS_ALLOWED)
    (hw1 : 1 ≤ mn) (hw2 : mx ≤ s.amu_scan_max) (hw3 : mn < mx)
    (hw4 : 10 ≤ rs) (hw5 : rs ≤ 25) :
    set_electron_energy s (some v) sb rb
      = (if rb = v then .ok () else
          .error (.rga "Electron energy setting readback differs from setpoint"),
        { s with electron_energy := v }, [⟨"EE", .int v⟩, ⟨"EE", .query⟩]) ∧
    set_ion_energy s (some vi) sb ie_rb
      = (match get_ion_energy ie_rb with
          | .ok w => if w = vi then .ok () else
              .error (.rga "Ion energy setting readback differs from setpoint")
          | .error e => .error e,
        { s with ion_energy := vi },
        [⟨"IE", .int (if vi = 8 then 0 else 1)⟩, ⟨"IE", .query⟩]) ∧
    set_plate_voltage s (some pv) sb pv_rb
      = (if pv_rb = pv then .ok () else
          .error (.rga "Focus plate voltage setting readback differs from setpoint"),
        { s with plate_voltage := pv }, [⟨"VF", .int (-pv)⟩, ⟨"VF", .query⟩]) ∧
    (s.cdem_present = true →
      set_cdem_voltage s (some cv) sb cv_rb
        = (if (cv : Rat) * (9/10) ≤ (cv_rb : Rat) ∧ (cv_rb : Rat) ≤ (cv : Rat) * (11/10)
            then .ok () else
            .error (.rga "CDEM voltage setting readback differs from setpoint"),
          { s with cedm_voltage := cv }, [⟨"HV", .int cv⟩, ⟨"HV", .query⟩])) ∧
    set_noise_floor s (some n) nrb
      = (if nrb = n then .ok () else
          .error (.rga "Noise floor setting readback differs from setpoint"),
        { s with noise_floor := n }, [⟨"NF", .int n⟩, ⟨"NF", .query⟩]) ∧
    set_spectrogram_params s mn mx rs mi mf sa
      = (if mi = mn ∧ mf = mx ∧ sa = rs then .ok () else
          .error (.rga "Spectrogram parameters readback differ from setpoints"),
        { s with amu_min := some mn, amu_max := some mx, amu_res := some rs },
        [⟨"MI", .int mn⟩, ⟨"MF", .int mx⟩, ⟨"SA", .int rs⟩,
          ⟨"MI", .query⟩, ⟨"MF", .query⟩, ⟨"SA", .query⟩]) ∧
    set_partial_sens s (some q) d
      = (.ok (), { s with partial_sens_mA_per_Torr := q }, []) ∧
    set_total_sens s (some t) d
      = (.ok (), { s with total_sens_mA_per_Torr := t }, []) ∧
    set_emission_current s (some c) = (.ok (), s, []) := by
  have hfind : ION_ENERGIES_ALLOWED.find? (fun p => p.1 == vi)
      = some (vi, if vi = 8 then 0 else 1) := by
    rcases hvi with h | h <;> subst h <;> rfl
  refine ⟨?_, ?_, ?_, ?_, ?_, ?_, ?_, ?_, ?_⟩
  · unfold set_electron_energy
    dsimp only
    rw [if_neg (by omega), check_status_byte_eq_none]
    dsimp only
    by_cases hrb : rb = v
    · rw [if_neg (by simpa using hrb), if_pos hrb]
    · rw [if_pos (by simpa using hrb), if_neg hrb]
  · unfold set_ion_energy
    dsimp only
    rw [hfind]
    dsimp only
    rw [check_status_byte_eq_none]
    dsimp only
    rcases hie : get_ion_energy ie_rb with e | w
    · dsimp only
    · dsimp only
      by_cases hw : w = vi
      · rw [if_neg (by simpa using hw), if_pos hw]
      · rw [if_pos (by simpa using hw), if_neg hw]
  · unfold set_plate_voltage
    dsimp only
    rw [if_neg (by omega), check_status_byte_eq_none]
    dsimp only
    by_cases hrb : pv_rb = pv
    · rw [if_neg (by simpa using hrb), if_pos hrb]
    · rw [if_pos (by simpa using hrb), if_neg hrb]
  · intro hp
    unfold set_cdem_voltage
    rw [if_neg (by simp [hp])]
    dsimp only
    rw [if_neg (by omega), if_neg (by push_neg; exact ⟨hcv1, hcv2⟩)]
    unfold cdemVerify
    rw [check_status_byte_eq_none]
    dsimp only
    by_cases hb : (cv : Rat) * (9/10) ≤ (cv_rb : Rat) ∧
        (cv_rb : Rat) ≤ (cv : Rat) * (11/10)
    · rw [if_neg (not_not_intro hb), if_pos hb]
    · rw [if_pos hb, if_neg hb]
  · unfold set_noise_floor
    dsimp only
    rw [if_pos hn]
    by_cases hrb : nrb = n
    · rw [if_neg (by simpa using hrb), if_pos hrb]
    · rw [if_pos (by simpa using hrb), if_neg hrb]
  · unfold set_spectrogram_params
    rw [if_neg (by push_neg; exact ⟨hw1, hw2⟩), if_neg (by omega),
      if_neg (by push_neg; exact ⟨hw4, hw5⟩)]
    dsimp only
    by_cases hrb : mi = mn ∧ mf = mx ∧ sa = rs
    · have hne : ¬(mi ≠ mn ∨ mf ≠ mx ∨ sa ≠ rs) := by
        obtain ⟨e1, e2, e3⟩ := hrb
        subst e1
        subst e2
        subst e3
        simp
      rw [if_neg hne, if_pos hrb]
    · have hne : mi ≠ mn ∨ mf ≠ mx ∨ sa ≠ rs := by
        by_contra hcon
        push_neg at hcon
        exact hrb ⟨hcon.1, hcon.2.1, hcon.2.2⟩
      rw [if_pos hne, if_neg hrb]
  · unfold set_partial_sens
    dsimp only
    rw [if_neg (by push_neg; exact ⟨hq1, hq2⟩)]
  · unfold set_total_sens
    dsimp only
    rw [if_neg (by push_neg; exact ⟨ht1, ht2⟩)]
  · unfold set_emission_current
    dsimp only
    rw [if_neg (by push_neg; exact ⟨hc1, hc2⟩), if_neg (not_not_intro hc3)]

/-- Witness for C2 at electron energy 70, ion energy 12 (wire readback is
device code 1), plate voltage 90, CDEM voltage 1400, noise floor 3 and
window (10, 20, 10) — all with matching readbacks — plus partial sensitivity
5, total sensitivity 20 and emission current 1.0 mA. -/
theorem C2_set_then_verify_witness :
    set_electron_energy s0 (some 70) 0 70
      = (.ok (), { s0 with electron_energy := 70 }, [⟨"EE", .int 70⟩, ⟨"EE", .query⟩]) ∧
    set_ion_energy s0 (some 12) 0 1
      = (.ok (), { s0 with ion_energy := 12 }, [⟨"IE", .int 1⟩, ⟨"IE", .query⟩]) ∧
    set_plate_voltage s0 (some 90) 0 90
      = (.ok (), { s0 with plate_voltage := 90 }, [⟨"VF", .int (-90)⟩, ⟨"VF", .query⟩]) ∧
    set_cdem_voltage s0 (some 1400) 0 1400
      = (.ok (), { s0 with cedm_voltage := 1400 }, [⟨"HV", .int 1400⟩, ⟨"HV", .query⟩]) ∧
    set_noise_floor s0 (some 3) 3
      = (.ok (), { s0 with noise_floor := 3 }, [⟨"NF", .int 3⟩, ⟨"NF", .query⟩]) ∧
    set_spectrogram_params s0 10 20 10 10 20 10
      = (.ok (), { s0 with amu_min := some 10, amu_max := some 20, amu_res := some 10 },
        [⟨"MI", .int 10⟩, ⟨"MF", .int 20⟩, ⟨"SA", .int 10⟩,
          ⟨"MI", .query⟩, ⟨"MF", .query⟩, ⟨"SA", .query⟩]) ∧
    set_partial_sens s0 (some 5) 0
      = (.ok (), { s0 with partial_sens_mA_per_Torr := 5 }, []) ∧
    set_total_sens s0 (some 20) 0
      = (.ok (), { s0 with total_sens_mA_per_Torr := 20 }, []) ∧
    set_emission_current s0 (some 1) = (.ok (), s0, []) := by
  have h := C2_set_then_verify s0 70 3 12 90 1400 0 70 3 1 90 1400 5 0 1 20
    10 20 10 10 20 10
    (by norm_num) (by norm_num) (Or.inr rfl) (by norm_num) (by norm_num)
    (by norm_num) (by norm_num) (by decide) (by norm_num) (by norm_num)
    (by norm_num) (by norm_num) (by norm_num) (by norm_num)
    one_mem_emission_allowed (by norm_num) (by decide) (by norm_num)
    (by norm_num) (by norm_num)
  obtain ⟨h1, h2, h3, h4, h5, h6, h7, h8, h9⟩ := h
  rw [if_pos rfl] at h1
  rw [show get_ion_energy 1 = Except.ok 12 from rfl] at h2
  dsimp only at h2
  rw [if_pos rfl, if_neg (by decide)] at h2
  rw [if_pos rfl] at h3
  have h4b := h4 rfl
  rw [if_pos (by norm_num)] at h4b
  rw [if_pos rfl] at h5
  rw [if_pos ⟨rfl, rfl, rfl⟩] at h6
  exact ⟨h1, h2, h3, h4b, h5, h6, h7, h8, h9⟩

/-- C5 counterexample: with the CDEM present, setting voltage 0 while the
`HV?` readback reports 5 V raises the readback `RGAException` — the zero set
is NOT exempt from the readback comparison and does not always succeed. -/
theorem C5_counterexample_zero_is_checked :
    set_cdem_voltage s0 (some 0) 0 5
      = (.error (.rga "CDEM voltage setting readback differs from setpoint"),
        { s0 with cedm_voltage := 0 }, [⟨"HV", .int 0⟩, ⟨"HV", .query⟩]) := by
  unfold set_cdem_voltage
  rw [if_neg (by norm_num [s0])]
  dsimp only
  rw [if_pos rfl]
  unfold cdemVerify
  rw [check_status_byte_eq_none]
  dsimp only
  rw [if_pos (by norm_num)]

/-- C5 (amended): when the CDEM is present, `set_cdem_voltage 0` skips the
[10, 2490] bound validation (0 is accepted), stores 0, sends `HV0` and the
`HV?` query, and still runs the ±10 percent readback band — which around a
setpoint of 0 collapses to requiring the readback to be exactly 0, so the
call succeeds precisely on a zero readback.  When the CDEM is absent the
call is a no-op that succeeds. -/
theorem C5_zero_cdem_voltage (s : Session) (sb : Nat) (rb : Int)
    (hp : s.cdem_present = true) :
    set_cdem_voltage s (some 0) sb rb
      = (if rb = 0 then .ok () else
          .error (.rga "CDEM voltage setting readback differs from setpoint"),
        { s with cedm_voltage := 0 }, [⟨"HV", .int 0⟩, ⟨"HV", .query⟩]) ∧
    (∀ s2 : Session, s2.cdem_present = false →
      set_cdem_voltage s2 (some 0) sb rb = (.ok (), s2, [])) := by
  constructor
  · unfold set_cdem_voltage
    rw [if_neg (by simp [hp])]
    dsimp only
    rw [if_pos rfl]
    unfold cdemVerify
    rw [check_status_byte_eq_none]
    dsimp only
    by_cases hrb : rb = 0
    · rw [if_neg ?hband, if_pos hrb]
      case hband =>
        push_neg
        subst hrb
        push_cast
        norm_num
    · rw [if_pos ?hband, if_neg hrb]
      case hband =>
        push_cast
        intro hcon
        rcases hcon with ⟨h1, h2⟩
        have : (rb : Rat) = 0 := le_antisymm (by linarith) (by linarith)
        exact hrb (by exact_mod_cast this)
  · intro s2 hs2
    unfold set_cdem_voltage
    rw [if_pos hs2]

/-- Witness for C5: a zero set with a zero readback succeeds, a zero set on a
CDEM-less head is a no-op. -/
theorem C5_zero_cdem_voltage_witness :
    set_cdem_voltage s0 (some 0) 0 0
      = (.ok (), { s0 with cedm_voltage := 0 }, [⟨"HV", .int 0⟩, ⟨"HV", .query⟩]) ∧
    set_cdem_voltage { s0 with cdem_present := false } (some 0) 0 0
      = (.ok (), { s0 with cdem_present := false }, []) := by
  have h := C5_zero_cdem_voltage s0 0 0 rfl
  refine ⟨?_, h.2 { s0 with cdem_present := false } rfl⟩
  have h1 := h.1
  rw [if_pos rfl] at h1
  exact h1

/-- C6 counterexample: turning on the filament with setpoint 1.0 mA while the
readback reports 0.0 mA (the filament failed to light) raises — as a
`TypeError`, by the malformed message format — yet the session filament flag
remains `True`: it was set before verification and is never rolled back. -/
theorem C6_counterexample_flag_on_without_current :
    (turn_on_filament s0 0 0).1 = .error .typeError ∧
    (turn_on_filament s0 0 0).2.1.filament_status = true := by
  unfold turn_on_filament s0
  dsimp only
  rw [check_status_byte_eq_none]
  dsimp only
  rw [if_pos (by norm_num)]
  exact ⟨rfl, rfl⟩

/-- C6 (amended): `turn_on_filament` sets the session filament flag to on
before sending `FL` and before any verification, so the flag reads on at
every exit — including the failing exit, where a readback outside the
±0.02 mA band raises (a `TypeError`, by the malformed message formatting)
with the flag left on and no verified current.  `turn_off_filament`
symmetrically sets the flag to off before confirmation; a readback at or
above 0.02 mA, like a failed readback query, raises the hard cannot-confirm
`RGAException` — the call never reports success while lingering current is
confirmed — but the flag stays off. -/
theorem C6_filament_flag_discipline (s : Session) (sb : Nat) (rb cur : Rat)
    (orb : Option Rat) (hcur : s.emission_current = some cur) :
    ((turn_on_filament s sb rb).2.1.filament_status = true) ∧
    (rb < cur - 1/50 ∨ rb > cur + 1/50 →
      (turn_on_filament s sb rb).1 = .error .typeError) ∧
    ((turn_off_filament s sb orb).2.1.filament_status = false) ∧
    (∀ c, orb = some c → ¬ c < 0 + 1/50 →
      (turn_off_filament s sb orb).1
        = .error (.rga "Cannot confirm that the filament is off! Turn off RGA before venting the system!")) ∧
    (orb = none →
      (turn_off_filament s sb orb).1
        = .error (.rga "Cannot confirm that the filament is off! Turn off RGA before venting the system!")) := by
  refine ⟨?_, ?_, ?_, ?_, ?_⟩
  · unfold turn_on_filament
    rw [hcur]
    dsimp only
    rw [check_status_byte_eq_none]
    dsimp only
    by_cases hb : rb < cur - 1/50 ∨ rb > cur + 1/50
    · rw [if_pos hb]
      rfl
    · rw [if_neg hb]
  · intro hb
    unfold turn_on_filament
    rw [hcur]
    dsimp only
    rw [check_status_byte_eq_none]
    dsimp only
    rw [if_pos hb]
    rfl
  · unfold turn_off_filament
    dsimp only
    rw [check_status_byte_eq_none]
    dsimp only
    rcases orb with _ | c
    · rfl
    · dsimp only
      by_cases hb : c < 0 + 1/50
      · rw [if_pos hb]
      · rw [if_neg hb]
  · intro c hc hge
    subst hc
    unfold turn_off_filament
    dsimp only
    rw [check_status_byte_eq_none]
    dsimp only
    rw [if_neg hge]
  · intro hn
    subst hn
    unfold turn_off_filament
    dsimp only
    rw [check_status_byte_eq_none]

/-- Witness for C6 at setpoint 1.0 mA, failing on-readback 0.0 mA and
lingering off-readback 1.0 mA. -/
theorem C6_filament_flag_discipline_witness :
    ((turn_on_filament s0 0 0).2.1.filament_status = true) ∧
    ((turn_on_filament s0 0 0).1 = .error .typeError) ∧
    ((turn_off_filament s0 0 (some 1)).2.1.filament_status = false) ∧
    ((turn_off_filament s0 0 (some 1)).1
      = .error (.rga "Cannot confirm that the filament is off! Turn off RGA before venting the system!")) := by
  have h := C6_filament_flag_discipline s0 0 0 1 (some 1) rfl
  exact ⟨h.1, h.2.1 (by norm_num), h.2.2.1, h.2.2.2.1 1 rfl (by norm_num)⟩

/-- C9 (confirmed): reading a spectrum while the session filament flag is off
fails with the filament-off `RGAException` before any frame is written or any
read is requested; with the flag on and a requested window equal to the
stored one, the window-setting commands are not resent — exactly the single
scan-start frame `SC1` is written — and the whole payload of
`(max - min) * resolution + 1 + 1` four-byte samples is requested from the
Chunked Reader in a single call before any decoding. -/
theorem C9_read_spectrum_gating (s s2 : Session) (mn mx rs mi mf sa : Int)
    (avail stream : Nat → Nat)
    (hoff : s.filament_status = false) (hon : s2.filament_status = true)
    (hmn : s2.amu_min = some mn) (hmx : s2.amu_max = some mx)
    (hrs : s2.amu_res = some rs) :
    read_spectrum s mn mx rs mi mf sa avail stream
      = (.error (.rga "Filament is off! Turn on filament first!"), s, [], none) ∧
    (read_spectrum s2 mn mx rs mi mf sa avail stream).2.2.1 = [⟨"SC", .str "1"⟩] ∧
    (read_spectrum s2 mn mx rs mi mf sa avail stream).2.2.2
      = some ((4 * ((mx - mn) * rs + 1 + 1)).toNat) := by
  constructor
  · unfold read_spectrum
    rw [if_pos hoff]
  · unfold read_spectrum
    rw [if_neg (by simp [hon])]
    dsimp only
    rw [if_neg (by simp [hmn, hmx, hrs])]
    dsimp only
    rw [hmn, hmx, hrs]
    dsimp only
    rcases _read_buffer_chunked avail stream (4 * ((mx - mn) * rs + 1 + 1)).toNat 1000
      with _ | out
    · exact ⟨rfl, rfl⟩
    · rcases out with _ | bs <;> exact ⟨rfl, rfl⟩

/-- The session `s0` with the filament on and the scan window (10, 20, 10)
installed. -/
def s0on : Session := { s0 with
  filament_status := true
  amu_min := some 10
  amu_max := some 20
  amu_res := some 10 }

/-- Witness for C9: a filament-off session fails; a filament-on session with
the stored window (10, 20, 10) issues only `SC1` and requests
4 * 102 = 408 bytes. -/
theorem C9_read_spectrum_gating_witness :
    read_spectrum s0 10 20 10 10 20 10 (fun t => t) (fun i => i)
      = (.error (.rga "Filament is off! Turn on filament first!"), s0, [], none) ∧
    (read_spectrum s0on 10 20 10 10 20 10
      (fun t => t) (fun i => i)).2.2.1 = [⟨"SC", .str "1"⟩] ∧
    (read_spectrum s0on 10 20 10 10 20 10
      (fun t => t) (fun i => i)).2.2.2 = some 408 := by
  have h := C9_read_spectrum_gating s0 s0on 10 20 10 10 20 10
    (fun t => t) (fun i => i) rfl rfl rfl rfl rfl
  exact ⟨h.1, h.2.1, by rw [h.2.2]; decide⟩
